import Mathlib

/-!
Verification of the form-submission binding component of the `fragg`
repository (sandbox templates).

The only executable logic in the repository is the `greet` function of
`sandbox-templates/gradio-developer/app.py`:

    def greet(name, intensity):
        return "✨ " + "Hello, " + name + "!" * int(intensity)

together with the widget declarations that wire it up:

    name      = gr.Textbox(label="Your Name", ...)
    intensity = gr.Slider(1, 10, value=5, label="Intensity Level")
    output    = gr.Textbox(label="Generated Greeting", interactive=False)
    submit_btn.click(fn=greet, inputs=[name, intensity], outputs=output)

The generic Binding Registry (`register` / `trigger` with its error kinds)
is described only in the specification; it is modelled here from the
spec's words and instantiated with the source's `greet` transform.
-/

/-- Python `int()` applied to a (rational-valued) number: truncation toward
zero, i.e. floor for non-negative arguments and ceiling for negative ones. -/
def pyInt (q : ℚ) : ℤ := if 0 ≤ q then ⌊q⌋ else ⌈q⌉

/-- Python string repetition `s * n`: `n` copies of `s` concatenated, the
empty string when `n ≤ 0`. -/
def strMul (s : String) (n : ℤ) : String :=
  (List.replicate n.toNat s).foldr (· ++ ·) ""

/-- The source transform (`app.py` line 164-165):
`return "✨ " + "Hello, " + name + "!" * int(intensity)`.
Python `+` is left-associative and `*` binds tighter, hence the parentheses.
The numeric argument is modelled as a rational, since the Gradio slider
delivers a (possibly non-integral) number that the code passes through
`int()`. -/
def greet (name : String) (intensity : ℚ) : String :=
  (("✨ " ++ "Hello, ") ++ name) ++ strMul "!" (pyInt intensity)

/-- The spec's reference formula: `"✨ Hello, " + name + ("!" * intensity)`
with the repetition count given directly as a natural number. Stated
independently of `greet` so the two can be compared. -/
def specGreeting (name : String) (i : ℕ) : String :=
  "✨ Hello, " ++ name ++ String.mk (List.replicate i '!')

/-- A slot value: text or numeric (the two semantic types of the spec's
data model). -/
inductive Value where
  | str (s : String)
  | num (q : ℚ)
deriving DecidableEq, Repr

/-- Validation constraints of an InputSlot: free text, or a numeric range
`[lo, hi]` (slider bounds). -/
inductive Constraint where
  | text
  | range (lo hi : ℚ)
deriving DecidableEq, Repr

/-- Modelled from the spec: an InputSlot has an identifier, validation
constraints and a current value (the semantic type is carried by the
constraint and the value). -/
structure InputSlot where
  id : String
  constraint : Constraint
  value : Value
deriving DecidableEq, Repr

/-- Modelled from the spec: an OutputSlot has an identifier and a
last-written value. -/
structure OutputSlot where
  id : String
  value : Value
deriving DecidableEq, Repr

/-- Modelled from the spec: a Binding is an ordered list of InputSlot
references, an ordered list of OutputSlot references, and a transform
whose declared signature fixes an input and output arity. A transform
that fails is surfaced as `TransformError`, modelled by `none`. -/
structure Binding where
  inputs : List String
  outputs : List String
  inArity : ℕ
  outArity : ℕ
  transform : List Value → Option (List Value)

/-- Modelled from the spec: the registry state — the slot storage owned by
the UI Runtime plus the registered bindings, keyed by action id. -/
structure RegistryState where
  inputs : List InputSlot
  outputs : List OutputSlot
  bindings : List (String × Binding)

/-- The spec's error kinds (section 7). -/
inductive BindingError where
  | configurationError
  | notFoundError
  | validationError
  | transformError
deriving DecidableEq, Repr

/-- Check a value against a slot's declared constraints: a numeric slider
value must lie in `[lo, hi]`; text is unconstrained. -/
def validate : Constraint → Value → Bool
  | .text, .str _ => true
  | .range lo hi, .num q => decide (lo ≤ q ∧ q ≤ hi)
  | _, _ => false

/-- Modelled from the spec: `register(binding)` accepts a Binding whose
input/output slot references already exist and whose slot counts match the
transform's declared arity; otherwise it fails with `ConfigurationError`
and no Binding is added. -/
def register (s : RegistryState) (actionId : String) (b : Binding) :
    Except BindingError RegistryState :=
  if (∀ r ∈ b.inputs, ∃ sl ∈ s.inputs, sl.id = r) ∧
      (∀ r ∈ b.outputs, ∃ sl ∈ s.outputs, sl.id = r) ∧
      b.inputs.length = b.inArity ∧ b.outputs.length = b.outArity then
    .ok { s with bindings := s.bindings ++ [(actionId, b)] }
  else
    .error .configurationError

/-- Modelled from the spec: read the current values of the referenced
InputSlots in order, validating each against its constraints and failing
with `ValidationError` otherwise. -/
def readInputs (inputs : List InputSlot) : List String → Except BindingError (List Value)
  | [] => .ok []
  | r :: rs =>
    match inputs.find? (fun sl => sl.id = r) with
    | none => .error .validationError
    | some sl =>
      if validate sl.constraint sl.value then
        match readInputs inputs rs with
        | .ok vs => .ok (sl.value :: vs)
        | .error e => .error e
      else
        .error .validationError

/-- Overwrite the value of every output slot whose id matches. -/
def setOutput (outs : List OutputSlot) (oid : String) (v : Value) : List OutputSlot :=
  outs.map fun o => if o.id = oid then { o with value := v } else o

/-- Write the resulting values to the corresponding OutputSlots in order. -/
def writeOutputs (outs : List OutputSlot) : List (String × Value) → List OutputSlot
  | [] => outs
  | p :: ps => writeOutputs (setOutput outs p.1 p.2) ps

/-- The last value written to the slot `oid` by a write list, if any
(later writes win). Characterizes `writeOutputs` slot by slot. -/
def lastWrite : List (String × Value) → String → Option Value
  | [], _ => none
  | p :: ps, oid =>
    match lastWrite ps oid with
    | some v => some v
    | none => if p.1 = oid then some p.2 else none

/-- Modelled from the spec: the pure part of `trigger(actionId)` — look up
the Binding (`NotFoundError` if absent), read and validate the referenced
InputSlots, invoke the transform, and pair the resulting values with the
referenced OutputSlots in order. It does not touch the output storage. -/
def triggerResult (s : RegistryState) (actionId : String) :
    Except BindingError (List (String × Value)) :=
  match s.bindings.find? (fun p => p.1 = actionId) with
  | none => .error .notFoundError
  | some (_, b) =>
    match readInputs s.inputs b.inputs with
    | .error e => .error e
    | .ok vs =>
      match b.transform vs with
      | none => .error .transformError
      | some outs => .ok (b.outputs.zip outs)

/-- Modelled from the spec: `trigger(actionId)` — compute the transform
result and write it back to the designated output slots; on any error the
state is left untouched (no OutputSlot is written). -/
def trigger (s : RegistryState) (actionId : String) :
    Except BindingError RegistryState :=
  match triggerResult s actionId with
  | .error e => .error e
  | .ok pairs => .ok { s with outputs := writeOutputs s.outputs pairs }

/-- The input slots declared by the template (`app.py` lines 155-156): a
free-text name defaulting to the empty string, and an intensity slider
`gr.Slider(1, 10, value=5)`. -/
def initialInputs : List InputSlot :=
  [ { id := "name", constraint := .text, value := .str "" },
    { id := "intensity", constraint := .range 1 10, value := .num 5 } ]

/-- The output slot declared by the template (`app.py` line 161). -/
def initialOutputs : List OutputSlot :=
  [ { id := "output", value := .str "" } ]

/-- The binding declared by `submit_btn.click(fn=greet, inputs=[name,
intensity], outputs=output)` (`app.py` line 167): two inputs, one output,
transform `greet`. -/
def greetBinding : Binding where
  inputs := ["name", "intensity"]
  outputs := ["output"]
  inArity := 2
  outArity := 1
  transform := fun vs =>
    match vs with
    | [.str n, .num q] => some [.str (greet n q)]
    | _ => none

/-- The registry state right after UI Runtime initialization, with the
template's binding registered under the action id "submit". -/
def initialState : RegistryState where
  inputs := initialInputs
  outputs := initialOutputs
  bindings := [("submit", greetBinding)]

/-- A state like `initialState` but whose intensity slot holds the value 42,
outside the declared slider bounds `[1, 10]`. -/
def invalidState : RegistryState where
  inputs :=
    [ { id := "name", constraint := .text, value := .str "" },
      { id := "intensity", constraint := .range 1 10, value := .num 42 } ]
  outputs := initialOutputs
  bindings := [("submit", greetBinding)]

/-- A state like `initialState` but whose output slot still holds a stale
previously-written value. -/
def staleState : RegistryState where
  inputs := initialInputs
  outputs := [ { id := "output", value := .str "stale previous content" } ]
  bindings := [("submit", greetBinding)]

/-- A mis-declared binding: two input slot references but a declared input
arity of three. -/
def badBinding : Binding := { greetBinding with inArity := 3 }

/-! ## Helper lemmas -/

lemma foldr_append_replicate_bang (k : ℕ) :
    (List.replicate k "!").foldr (· ++ ·) "" = String.mk (List.replicate k '!') := by
  induction k with
  | zero => rfl
  | succ k ih =>
    rw [List.replicate_succ, List.foldr_cons, ih]
    rfl

lemma strMul_mk (m : ℤ) : strMul "!" m = String.mk (List.replicate m.toNat '!') :=
  foldr_append_replicate_bang m.toNat

lemma pyInt_intCast (i : ℤ) : pyInt (i : ℚ) = i := by
  unfold pyInt
  by_cases h : (0 : ℚ) ≤ (i : ℚ)
  · rw [if_pos h, Int.floor_intCast]
  · rw [if_neg h, Int.ceil_intCast]

lemma map_value_id (outs : List OutputSlot) :
    (outs.map fun o => { o with value := o.value }) = outs := by
  have h : (fun o : OutputSlot => { o with value := o.value }) = id := funext fun o => rfl
  rw [h, List.map_id]

lemma writeOutputs_eq_map (ps : List (String × Value)) :
    ∀ outs : List OutputSlot,
      writeOutputs outs ps =
        outs.map fun o => { o with value := (lastWrite ps o.id).getD o.value } := by
  induction ps with
  | nil =>
    intro outs
    simp only [writeOutputs, lastWrite, Option.getD_none, map_value_id]
  | cons p ps ih =>
    intro outs
    rw [writeOutputs, ih, setOutput, List.map_map]
    refine List.map_congr_left fun o _ => ?_
    simp only [Function.comp_apply]
    by_cases h : o.id = p.1
    · rw [if_pos h]
      cases hl : lastWrite ps o.id with
      | none =>
        rw [h] at hl
        simp [lastWrite, hl, h]
      | some v => simp [lastWrite, hl]
    · rw [if_neg h]
      cases hl : lastWrite ps o.id with
      | none =>
        have h' : ¬ p.1 = o.id := fun hh => h hh.symm
        simp [lastWrite, hl, h']
      | some v => simp [lastWrite, hl]

lemma writeOutputs_idem (outs : List OutputSlot) (ps : List (String × Value)) :
    writeOutputs (writeOutputs outs ps) ps = writeOutputs outs ps := by
  simp only [writeOutputs_eq_map, List.map_map]
  refine List.map_congr_left fun o _ => ?_
  simp only [Function.comp_apply]
  cases hl : lastWrite ps o.id <;> simp [hl]

lemma triggerResult_congr (s₁ s₂ : RegistryState) (a : String)
    (hin : s₁.inputs = s₂.inputs) (hb : s₁.bindings = s₂.bindings) :
    triggerResult s₁ a = triggerResult s₂ a := by
  unfold triggerResult
  rw [hin, hb]

lemma readInputs_ok_or_validation (inputs : List InputSlot) (rs : List String) :
    (∃ vs, readInputs inputs rs = .ok vs) ∨
      readInputs inputs rs = .error .validationError := by
  induction rs with
  | nil => exact Or.inl ⟨[], rfl⟩
  | cons r rs ih =>
    cases hf : inputs.find? (fun sl => sl.id = r) with
    | none =>
      refine Or.inr ?_
      simp [readInputs, hf]
    | some sl =>
      by_cases hv : validate sl.constraint sl.value = true
      · rcases ih with ⟨vs, hvs⟩ | hvs
        · refine Or.inl ⟨sl.value :: vs, ?_⟩
          simp [readInputs, hf, hv, hvs]
        · refine Or.inr ?_
          simp [readInputs, hf, hv, hvs]
      · refine Or.inr ?_
        simp [readInputs, hf, hv]

lemma readInputs_ok_valid (inputs : List InputSlot) :
    ∀ (rs : List String) (vs : List Value), readInputs inputs rs = .ok vs →
      ∀ r ∈ rs, ∀ sl, inputs.find? (fun x => x.id = r) = some sl →
        validate sl.constraint sl.value = true := by
  intro rs
  induction rs with
  | nil =>
    intro vs _ r hr
    exact absurd hr (List.not_mem_nil r)
  | cons r0 rs ih =>
    intro vs h r hr sl hsl
    rw [readInputs] at h
    rcases List.mem_cons.mp hr with rfl | hr'
    · by_cases hv : validate sl.constraint sl.value = true
      · exact hv
      · simp [hsl, hv] at h
    · cases hf : inputs.find? (fun x => x.id = r0) with
      | none => simp [hf] at h
      | some sl0 =>
        by_cases hv : validate sl0.constraint sl0.value = true
        · simp only [hf, hv, if_true] at h
          cases hrec : readInputs inputs rs with
          | ok vs' => exact ih vs' hrec r hr' sl hsl
          | error e => simp [hrec] at h
        · simp [hf, hv] at h

/-! ## Claim theorems -/

/-- C1: for every name string `n` and every intensity integer `i` with
`1 ≤ i ≤ 10`, the registered transform (the `greet` function) returns
exactly the string `"✨ Hello, " ++ n` followed by the character `'!'`
repeated `i` times. -/
theorem greet_matches_spec (n : String) (i : ℤ) (h1 : 1 ≤ i) (h2 : i ≤ 10) :
    greet n (i : ℚ) = specGreeting n i.toNat := by
  unfold greet specGreeting
  rw [pyInt_intCast, strMul_mk]
  rfl

/-- Witness for C1 at `n = "Ava"`, `i = 3`. -/
theorem greet_matches_spec_witness :
    (1 : ℤ) ≤ 3 ∧ (3 : ℤ) ≤ 10 ∧
      greet "Ava" ((3 : ℤ) : ℚ) = specGreeting "Ava" (3 : ℤ).toNat :=
  ⟨by decide, by decide, greet_matches_spec "Ava" 3 (by decide) (by decide)⟩

/-- C2: the spec's two worked examples — `greet "Ava" 3 = "✨ Hello, Ava!!!"`
and `greet "" 1 = "✨ Hello, !"`. -/
theorem greet_worked_examples :
    greet "Ava" 3 = "✨ Hello, Ava!!!" ∧ greet "" 1 = "✨ Hello, !" :=
  ⟨rfl, rfl⟩

/-- C8: the transform accepts non-integer numeric intensity values and
truncates them toward zero before repetition — for every name `n` and every
non-negative rational intensity `x`, `greet n x` is the greeting with
`⌊x⌋` exclamation marks. -/
theorem greet_truncates_intensity (n : String) (x : ℚ) (hx : 0 ≤ x) :
    greet n x = specGreeting n ⌊x⌋.toNat := by
  unfold greet specGreeting pyInt
  rw [if_pos hx, strMul_mk]
  rfl

/-- Witness for C8 at `n = "Bo"`, `x = 7/2` (a non-integral intensity,
truncated to 3). -/
theorem greet_truncates_intensity_witness :
    (0 : ℚ) ≤ 7 / 2 ∧ greet "Bo" (7 / 2) = specGreeting "Bo" ⌊(7 / 2 : ℚ)⌋.toNat :=
  ⟨by norm_num, greet_truncates_intensity "Bo" (7 / 2) (by norm_num)⟩

/-- C9: the transform itself performs no bounds validation — for every name
`n` and every integer intensity `i ≤ 0`, `greet n i` returns
`"✨ Hello, " ++ n` with zero exclamation marks instead of raising an
error. -/
theorem greet_nonpositive_intensity (n : String) (i : ℤ) (h : i ≤ 0) :
    greet n (i : ℚ) = "✨ Hello, " ++ n := by
  unfold greet
  rw [pyInt_intCast, strMul_mk, Int.toNat_of_nonpos h]
  exact String.append_empty _

/-- Witness for C9 at `n = "Zed"`, `i = -3`. -/
theorem greet_nonpositive_intensity_witness :
    (-3 : ℤ) ≤ 0 ∧ greet "Zed" ((-3 : ℤ) : ℚ) = "✨ Hello, " ++ "Zed" :=
  ⟨by decide, greet_nonpositive_intensity "Zed" (-3) (by decide)⟩

/-- C3: if `trigger` succeeds, the input slots and the bindings are left
unchanged, and calling `trigger` again on the resulting state (i.e. with
unchanged InputSlot values) succeeds and writes identical OutputSlot
values: the second call returns the very same state. -/
theorem trigger_idempotent (s s' : RegistryState) (a : String)
    (h : trigger s a = .ok s') :
    s'.inputs = s.inputs ∧ s'.bindings = s.bindings ∧ trigger s' a = .ok s' := by
  unfold trigger at h
  split at h
  next e heq => exact Except.noConfusion h
  next pairs heq =>
    injection h with h
    subst h
    refine ⟨rfl, rfl, ?_⟩
    unfold trigger
    have h2 : triggerResult { s with outputs := writeOutputs s.outputs pairs } a
        = Except.ok pairs := by
      rw [triggerResult_congr { s with outputs := writeOutputs s.outputs pairs } s a rfl rfl,
        heq]
    rw [h2]
    show Except.ok
        ({ s with outputs := writeOutputs (writeOutputs s.outputs pairs) pairs } : RegistryState) =
      Except.ok ({ s with outputs := writeOutputs s.outputs pairs } : RegistryState)
    rw [writeOutputs_idem]

/-- Witness for C3: triggering the template's "submit" action on the
already-triggered initial state. -/
theorem trigger_idempotent_witness :
    RegistryState.inputs
        { initialState with outputs := [ { id := "output", value := .str "✨ Hello, !!!!!" } ] } =
      initialState.inputs ∧
    RegistryState.bindings
        { initialState with outputs := [ { id := "output", value := .str "✨ Hello, !!!!!" } ] } =
      initialState.bindings ∧
    trigger { initialState with outputs := [ { id := "output", value := .str "✨ Hello, !!!!!" } ] }
        "submit" =
      .ok { initialState with outputs := [ { id := "output", value := .str "✨ Hello, !!!!!" } ] } :=
  trigger_idempotent initialState
    { initialState with outputs := [ { id := "output", value := .str "✨ Hello, !!!!!" } ] }
    "submit" rfl

/-- C4: if the binding registered for an action references an InputSlot
whose current value violates its declared constraints, `trigger` fails with
`ValidationError`; the binding (hence its transform) is universally
quantified, so the result does not depend on the transform — it is never
invoked. -/
theorem trigger_invalid_input_fails (s : RegistryState) (a : String) (b : Binding)
    (hfind : s.bindings.find? (fun p => p.1 = a) = some (a, b))
    (r : String) (sl : InputSlot)
    (hr : r ∈ b.inputs)
    (hsl : s.inputs.find? (fun x => x.id = r) = some sl)
    (hbad : validate sl.constraint sl.value = false) :
    trigger s a = .error .validationError := by
  have hro : ∀ vs, readInputs s.inputs b.inputs ≠ .ok vs := by
    intro vs hok
    have hvt := readInputs_ok_valid s.inputs b.inputs vs hok r hr sl hsl
    rw [hvt] at hbad
    exact Bool.noConfusion hbad
  have hrv : readInputs s.inputs b.inputs = .error .validationError := by
    rcases readInputs_ok_or_validation s.inputs b.inputs with ⟨vs, hv⟩ | hv
    · exact absurd hv (hro vs)
    · exact hv
  simp [trigger, triggerResult, hfind, hrv]

/-- Witness for C4: the intensity slot holds 42, outside `[1, 10]`. -/
theorem trigger_invalid_input_fails_witness :
    validate (Constraint.range 1 10) (.num 42) = false ∧
      trigger invalidState "submit" = .error .validationError :=
  ⟨rfl, trigger_invalid_input_fails invalidState "submit" greetBinding rfl "intensity"
      { id := "intensity", constraint := .range 1 10, value := .num 42 }
      (by decide) rfl rfl⟩

/-- C5: `trigger` on an action id with no registered Binding fails with
`NotFoundError` (and, returning an error, writes no OutputSlot). -/
theorem trigger_unknown_action (s : RegistryState) (a : String)
    (h : s.bindings.find? (fun p => p.1 = a) = none) :
    trigger s a = .error .notFoundError := by
  simp [trigger, triggerResult, h]

/-- Witness for C5: the template registers only "submit", so "reset" is
unknown. -/
theorem trigger_unknown_action_witness :
    initialState.bindings.find? (fun p => p.1 = "reset") = none ∧
      trigger initialState "reset" = .error .notFoundError :=
  ⟨rfl, trigger_unknown_action initialState "reset" rfl⟩

/-- C6: `register` on a Binding with an unknown input slot reference, an
unknown output slot reference, or a slot count differing from the declared
arity fails with `ConfigurationError` (and, returning an error, adds no
Binding to the registry). -/
theorem register_rejects_bad_binding (s : RegistryState) (a : String) (b : Binding)
    (h : (∃ r ∈ b.inputs, ∀ sl ∈ s.inputs, sl.id ≠ r) ∨
        (∃ r ∈ b.outputs, ∀ sl ∈ s.outputs, sl.id ≠ r) ∨
        b.inputs.length ≠ b.inArity ∨ b.outputs.length ≠ b.outArity) :
    register s a b = .error .configurationError := by
  unfold register
  rw [if_neg]
  rintro ⟨h1, h2, h3, h4⟩
  rcases h with ⟨r, hr, hn⟩ | ⟨r, hr, hn⟩ | hn | hn
  · obtain ⟨sl, hsl, hid⟩ := h1 r hr
    exact hn sl hsl hid
  · obtain ⟨sl, hsl, hid⟩ := h2 r hr
    exact hn sl hsl hid
  · exact hn h3
  · exact hn h4

/-- Witness for C6: `badBinding` declares input arity 3 but references two
input slots. -/
theorem register_rejects_bad_binding_witness :
    badBinding.inputs.length ≠ badBinding.inArity ∧
      register initialState "submit2" badBinding = .error .configurationError :=
  ⟨by decide, register_rejects_bad_binding initialState "submit2" badBinding
      (Or.inr (Or.inr (Or.inl (by decide))))⟩

/-- C7: the transform never reads an OutputSlot — for any two registry
states agreeing on InputSlots and bindings but with arbitrary (different)
prior OutputSlot values, a trigger call computes the same transform result,
i.e. the values written are independent of the OutputSlots' previous
contents. -/
theorem transform_independent_of_outputs (s₁ s₂ : RegistryState) (a : String)
    (hin : s₁.inputs = s₂.inputs) (hb : s₁.bindings = s₂.bindings) :
    triggerResult s₁ a = triggerResult s₂ a :=
  triggerResult_congr s₁ s₂ a hin hb

/-- Witness for C7: the fresh initial state and a state with a stale
previously-written output value. -/
theorem transform_independent_of_outputs_witness :
    initialState.inputs = staleState.inputs ∧
    initialState.bindings = staleState.bindings ∧
    triggerResult initialState "submit" = triggerResult staleState "submit" :=
  ⟨rfl, rfl, transform_independent_of_outputs initialState staleState "submit" rfl rfl⟩

/-- C10: the intensity InputSlot is declared with bounds `[1, 10]` and
default value 5, which satisfies its own validation constraint; the
template's binding registers successfully against the initial slots, and a
trigger on the untouched default state succeeds (producing the greeting for
the empty name at intensity 5). -/
theorem initial_state_trigger_ok :
    ({ id := "intensity", constraint := .range 1 10, value := .num 5 } : InputSlot) ∈
        initialInputs ∧
    validate (.range 1 10) (.num 5) = true ∧
    register { inputs := initialInputs, outputs := initialOutputs, bindings := [] } "submit"
        greetBinding = .ok initialState ∧
    trigger initialState "submit" =
      .ok { initialState with outputs := [ { id := "output", value := .str "✨ Hello, !!!!!" } ] } :=
  ⟨by decide, rfl, rfl, rfl⟩
